import Mathlib

/-!
Verification of the perception-action core of `src/backend/server.py`
(class `TankpitBot`).

The image-processing primitives of OpenCV (`cv2.imdecode`,
`cv2.findContours`, `cv2.boundingRect`, `cv2.contourArea`, `np.mean` of a
region of interest) are treated as abstract inputs: a decoded screenshot is
a grid of BGR pixels, and a contour is a record carrying the quantities the
repository reads off it (area, bounding rectangle, mean brightness of the
bounding-box region).  Everything the repository itself computes from those
quantities (pixel classification, ratio arithmetic, thresholds, filters,
sorting, truncation, the control loop and the search loop) is embedded
directly from the Python source.  Machine integers are modelled as `Nat`
(Python integers are unbounded and all values here are non-negative);
floating-point ratios are modelled as exact rationals, with Python's `int`
truncation modelled as floor on non-negative values and as
truncation-toward-zero in general.
-/

/-- A BGR pixel as produced by `cv2.imdecode(..., cv2.IMREAD_COLOR)`:
three 8-bit channels, stored in blue, green, red order. -/
structure Pix where
  b : Fin 256
  g : Fin 256
  r : Fin 256
deriving DecidableEq

/-- A decoded screenshot: a list of pixel rows. -/
abbrev Img := List (List Pix)

/-- Number of rows, `img.shape[0]`. -/
def imgHeight (img : Img) : ℕ := img.length

/-- Number of columns, `img.shape[1]` (rows are rectangular in a decoded
image; we read the width off the first row). -/
def imgWidth (img : Img) : ℕ := (img.head?.map List.length).getD 0

/-- Python row slice `img[a:b, :]`. -/
def cropRows (img : Img) (a b : ℕ) : Img := (img.take b).drop a

/-- Python column slice `img[:, a:b]`. -/
def cropCols (img : Img) (a b : ℕ) : Img := img.map (fun row => (row.take b).drop a)

/-- All pixels of an image region, flattened. -/
def pixels (img : Img) : List Pix := img.flatten

/-- Total pixel count of a region (`array.size / 3` in numpy terms). -/
def npix (img : Img) : ℕ := (pixels img).length

/-- `cv2.inRange(area, [lb,lg,lr], [hb,hg,hr])` membership test for one
pixel: every channel must lie between the corresponding bounds. -/
def pixInRange (p : Pix) (lb lg lr hb hg hr : ℕ) : Bool :=
  decide (lb ≤ p.b.val) && decide (p.b.val ≤ hb) &&
  decide (lg ≤ p.g.val) && decide (p.g.val ≤ hg) &&
  decide (lr ≤ p.r.val) && decide (p.r.val ≤ hr)

/-- `cv2.countNonZero(cv2.inRange(region, lo, hi))`: the number of pixels of
the region inside the given per-channel bounds. -/
def countInRange (region : List Pix) (lb lg lr hb hg hr : ℕ) : ℕ :=
  (region.filter (fun p => pixInRange p lb lg lr hb hg hr)).length

/-- `cv2.cvtColor(img, cv2.COLOR_BGR2GRAY)` for one pixel: OpenCV's fixed
point formula `(R*4899 + G*9617 + B*1868 + 8192) >> 14`. -/
def grayPix (p : Pix) : ℕ :=
  (4899 * p.r.val + 9617 * p.g.val + 1868 * p.b.val + 8192) / 16384

/-- `np.mean(gray)`: mean grayscale brightness of a region, as an exact
rational. -/
def meanGray (img : Img) : ℚ :=
  ((((pixels img).map grayPix).sum : ℕ) : ℚ) / ((npix img : ℕ) : ℚ)

/-- `np.mean(img[:, :, 2])`: mean of the red channel (index 2 in BGR). -/
def meanRed (img : Img) : ℚ :=
  ((((pixels img).map (fun p => p.r.val)).sum : ℕ) : ℚ) / ((npix img : ℕ) : ℚ)

/-- Python `int(q)` for a rational `q`: truncation toward zero. -/
def pyInt (q : ℚ) : ℤ := if 0 ≤ q then ⌊q⌋ else -⌊-q⌋

/-! ## `measure_fuel_in_bar` (server.py lines 1196-1237) -/

/-- The "black/empty" classification of `measure_fuel_in_bar`:
`cv2.inRange(region, [0,0,0], [40,40,40])`, i.e. every channel at most 40. -/
def isEmptyPix (p : Pix) : Bool := pixInRange p 0 0 0 40 40 40

/-- The "colored/fuel" classification of `measure_fuel_in_bar`:
`cv2.inRange(region, [41,41,41], [255,255,255])`. -/
def isFilledPix (p : Pix) : Bool := pixInRange p 41 41 41 255 255 255

/-- `TankpitBot.measure_fuel_in_bar` (lines 1196-1237) on the flattened
pixel list of the candidate bar rectangle (whose length is
`bar_width * bar_height`): count black pixels and fuel pixels, require the
classified pixels to cover at least half of the rectangle, and return the
truncated, clamped percentage `int(fuel/total*100)`; otherwise `None`. -/
def measure_fuel_in_bar (region : List Pix) : Option ℕ :=
  if region.length = 0 then none
  else
    let blackPixels := (region.filter isEmptyPix).length
    let fuelPixels := (region.filter isFilledPix).length
    let total := blackPixels + fuelPixels
    if 2 * total < region.length then none
    else if 0 < total then some (min 100 (100 * fuelPixels / total))
    else none

/-- The bar-measurement step exactly as the specification words it: a pixel
is empty when every channel is at most 40 and filled when every channel is
above 40; a reading exists only when at least 50% of the rectangle's pixels
are classified, and then equals `filled/(filled+empty)*100` clamped to
[0,100]. -/
def measure_fuel_in_bar_specside (region : List Pix) : Option ℕ :=
  let empty := (region.filter (fun p =>
    decide (p.b.val ≤ 40) && decide (p.g.val ≤ 40) && decide (p.r.val ≤ 40))).length
  let filled := (region.filter (fun p =>
    decide (40 < p.b.val) && decide (40 < p.g.val) && decide (40 < p.r.val))).length
  if region.length ≤ 2 * (empty + filled) then
    some (min 100 (100 * filled / (filled + empty)))
  else none

/-! ## `measure_fuel_gauge_simple` (lines 738-817) and
`detect_fuel_level` (lines 671-736) -/

/-- The five BGR fuel-gauge color ranges of `measure_fuel_gauge_simple`
(lines 750-761), each as `(lb, lg, lr, hb, hg, hr)`. -/
def fuelGaugeColorRanges : List (ℕ × ℕ × ℕ × ℕ × ℕ × ℕ) :=
  [ (0, 100, 0, 100, 255, 100),      -- green fuel gauge
    (100, 100, 0, 255, 255, 100),    -- blue fuel gauge
    (0, 150, 150, 100, 255, 255),    -- yellow fuel gauge
    (0, 0, 100, 100, 100, 255),      -- red fuel gauge
    (150, 150, 150, 255, 255, 255) ] -- white/gray fuel gauge

/-- One iteration of the color-range loop of `measure_fuel_gauge_simple`
(lines 766-787).  The accumulator is
`(best_fuel_percentage, max_fuel_pixels)`; when the current range matches
strictly more pixels than any previous one, the black-pixel count is taken
and, if enough relevant pixels exist (`> 100`), the best percentage is
replaced by the clamped ratio. -/
def measureGaugeStep (region : List Pix) (acc : Option ℕ × ℕ)
    (rng : ℕ × ℕ × ℕ × ℕ × ℕ × ℕ) : Option ℕ × ℕ :=
  let (lb, lg, lr, hb, hg, hr) := rng
  let fuelPixels := countInRange region lb lg lr hb hg hr
  if acc.2 < fuelPixels then
    let blackPixels := countInRange region 0 0 0 50 50 50
    let total := fuelPixels + blackPixels
    if 100 < total then (some (min 100 (100 * fuelPixels / total)), fuelPixels)
    else (acc.1, fuelPixels)
  else acc

/-- `TankpitBot.measure_fuel_gauge_simple` (lines 738-817) on the flattened
pixel list of the examined area: try the five colored-gauge ranges keeping
the best clamped ratio; if none produced a value or the best range matched
fewer than 50 pixels, fall back to black (channels at most 50) versus
colored (channels at least 51) counting, again requiring more than 100
relevant pixels. -/
def measure_fuel_gauge_simple (region : List Pix) : Option ℕ :=
  if region.length = 0 then none
  else
    let res := fuelGaugeColorRanges.foldl (measureGaugeStep region) (none, 0)
    if res.1 = none ∨ res.2 < 50 then
      let blackPixels := countInRange region 0 0 0 50 50 50
      let coloredPixels := countInRange region 51 51 51 255 255 255
      let total := blackPixels + coloredPixels
      if 100 < total then some (min 100 (100 * coloredPixels / total))
      else none
    else res.1

/-- The four screen areas probed in order by `detect_fuel_level`
(lines 693-728): bottom 15%, bottom 25%, right 20%, and the middle-right
window `img[0.6h:0.9h, 0.7w:w]`.  Python's `int(height*0.85)` etc. are
floor computations on non-negative values. -/
def fuelTierRegions (img : Img) : List (List Pix) :=
  let h := imgHeight img
  let w := imgWidth img
  [ pixels (cropRows img (85 * h / 100) h),
    pixels (cropRows img (75 * h / 100) h),
    pixels (cropCols img (80 * w / 100) w),
    pixels (cropCols (cropRows img (60 * h / 100) (90 * h / 100)) (70 * w / 100) w) ]

/-- The reading each fallback tier of `detect_fuel_level` produces. -/
def fuelTiers (img : Img) : List (Option ℕ) :=
  (fuelTierRegions img).map measure_fuel_gauge_simple

/-- The tier-selection logic of `detect_fuel_level`: return the first tier
result that is not `None` and strictly positive
(`if fuel_percentage is not None and fuel_percentage > 0`), else the
default 50 (line 732). -/
def firstPositiveTier : List (Option ℕ) → ℕ
  | [] => 50
  | some p :: rest => if 0 < p then p else firstPositiveTier rest
  | none :: rest => firstPositiveTier rest

/-- `TankpitBot.detect_fuel_level` (lines 671-736).  The argument models
the actuator: `none` is "no page available" (line 676), `some none` is a
screenshot that failed to decode (line 687); both return 50, as does the
`except` handler (line 736), which the embedding makes total by
construction. -/
def detect_fuel_level (page : Option (Option Img)) : ℕ :=
  match page with
  | none => 50
  | some none => 50
  | some (some img) => firstPositiveTier (fuelTiers img)

/-! ## `detect_death`: shadowed definition (lines 819-873) and effective
definition (lines 2386-2432) -/

/-- The fixed death-phrase list shared by both `detect_death` definitions
(lines 835-843 and 2402-2410). -/
def deathIndicators : List (List Char) :=
  [ "you have been destroyed".toList,
    "you died".toList,
    "game over".toList,
    "destroyed".toList,
    "respawn".toList,
    "press any key".toList,
    "click to continue".toList ]

/-- Does `text` start with `phrase`? -/
def phraseAt : List Char → List Char → Bool
  | _, [] => true
  | [], _ :: _ => false
  | c :: cs, d :: ds => decide (c = d) && phraseAt cs ds

/-- Python's `phrase in text` substring test. -/
def containsPhrase (text phrase : List Char) : Bool :=
  match text with
  | [] => phraseAt [] phrase
  | _ :: rest => phraseAt text phrase || containsPhrase rest phrase

/-- `content_lower = page_content.lower()` followed by membership of any
death indicator (lines 845-849 / 2412-2416). -/
def hasDeathIndicator (content : List Char) : Bool :=
  deathIndicators.any (fun ind => containsPhrase (content.map Char.toLower) ind)

/-- The SECOND definition of `TankpitBot.detect_death`
(lines 2386-2432) — the one Python binds to the method name, since in a
class body a later `def` of the same name replaces the earlier one.  `none`
models "no page", `some none` a screenshot that failed to decode (both
return `False`); otherwise death is reported on a death phrase in the page
content or on a very dark screen. -/
def detect_death (page : Option (Option Img)) (content : List Char) : Bool :=
  match page with
  | none => false
  | some none => false
  | some (some img) =>
    if hasDeathIndicator content then true
    else if meanGray img < 30 then true
    else false

/-- The FIRST, shadowed definition of `TankpitBot.detect_death`
(lines 819-873): identical to the effective one except for a third signal,
a red-tint check `np.mean(img[:,:,2]) > 150` (lines 863-867). -/
def detect_death_shadowed (page : Option (Option Img)) (content : List Char) : Bool :=
  match page with
  | none => false
  | some none => false
  | some (some img) =>
    if hasDeathIndicator content then true
    else if meanGray img < 30 then true
    else if 150 < meanRed img then true
    else false

/-! ## Object detectors: `detect_fuel_nodes` (lines 2280-2384) and
`detect_equipment_visually` (lines 1718-1807).

The HSV masking, morphology and `cv2.findContours` stage is abstracted:
its output is a list of contours, each carrying the quantities the Python
code reads from OpenCV — `cv2.contourArea`, `cv2.boundingRect` and the mean
brightness `np.mean(img[y:y+h, x:x+w])` of its bounding-box region.  The
repository's own filtering, value estimation, sorting and truncation are
embedded from the source. -/

/-- One external contour as the detector loops see it. -/
structure Contour where
  area : ℚ        -- cv2.contourArea(contour)
  x : ℕ           -- cv2.boundingRect(contour)
  y : ℕ
  w : ℕ
  h : ℕ
  brightness : ℚ  -- np.mean(img[y:y+h, x:x+w])
deriving DecidableEq

/-- `aspect_ratio = w / h if h > 0 else 0` (lines 2342 / 1778). -/
def contourAspect (c : Contour) : ℚ :=
  if 0 < c.h then (c.w : ℚ) / (c.h : ℚ) else 0

/-- Sort a list in non-increasing key order, as Python's
`list.sort(key=..., reverse=True)` does. -/
def sortDescBy {α β : Type} [LinearOrder β] (key : α → β) (l : List α) : List α :=
  List.insertionSort (fun a b => key b ≤ key a) l

instance sortDescRelDecidable {α β : Type} [LinearOrder β] (key : α → β) :
    DecidableRel (fun a b : α => key b ≤ key a) :=
  fun a b => inferInstanceAs (Decidable (key b ≤ key a))

instance sortDescRelTotal {α β : Type} [LinearOrder β] (key : α → β) :
    IsTotal α (fun a b : α => key b ≤ key a) :=
  ⟨fun a b => le_total (key b) (key a)⟩

instance sortDescRelTrans {α β : Type} [LinearOrder β] (key : α → β) :
    IsTrans α (fun a b : α => key b ≤ key a) :=
  ⟨fun _ _ _ hab hbc => le_trans hbc hab⟩

/-- The fuel-node filter (lines 2334-2348): contour area strictly between
80 and 3000, aspect ratio strictly between 0.5 and 2.0, and the bounding
box strictly more than `margin = 40` pixels away from every image edge
(Python's chained `margin < x < width - margin - w` on signed integers). -/
def fuelContourKept (width height : ℕ) (c : Contour) : Bool :=
  decide ((80 : ℚ) < c.area) && decide (c.area < 3000) &&
  decide ((1 / 2 : ℚ) < contourAspect c) && decide (contourAspect c < 2) &&
  decide ((40 : ℤ) < (c.x : ℤ)) && decide ((c.x : ℤ) < (width : ℤ) - 40 - (c.w : ℤ)) &&
  decide ((40 : ℤ) < (c.y : ℤ)) && decide ((c.y : ℤ) < (height : ℤ) - 40 - (c.h : ℤ))

/-- `estimated_value = max(10, min(100, int(area / 20 + avg_brightness / 10)))`
(lines 2355-2356). -/
def fuelNodeValue (c : Contour) : ℤ :=
  max 10 (min 100 (pyInt (c.area / 20 + c.brightness / 10)))

/-- The dictionary appended per kept fuel contour (lines 2358-2367). -/
structure FuelNode where
  x : ℕ
  y : ℕ
  width : ℕ
  height : ℕ
  area : ℚ
  brightness : ℚ
  estimated_value : ℤ
  aspect_ratio : ℚ
deriving DecidableEq

/-- Builds the per-contour fuel-node record (lines 2358-2367): the stored
position is the bounding-box center `(x + w//2, y + h//2)`. -/
def mkFuelNode (c : Contour) : FuelNode :=
  { x := c.x + c.w / 2
    y := c.y + c.h / 2
    width := c.w
    height := c.h
    area := c.area
    brightness := c.brightness
    estimated_value := fuelNodeValue c
    aspect_ratio := contourAspect c }

/-- `TankpitBot.detect_fuel_nodes` (lines 2280-2384) from the contour stage
on: filter, build records, sort descending by `estimated_value`
(line 2370), keep the first 10 (line 2373). -/
def detect_fuel_nodes (width height : ℕ) (contours : List Contour) : List FuelNode :=
  let nodes := (contours.filter (fuelContourKept width height)).map mkFuelNode
  (sortDescBy (fun n => n.estimated_value) nodes).take 10

/-- The equipment filter (lines 1770-1784): contour area strictly between
100 and 5000, aspect ratio strictly between 0.3 and 3.0, bounding box
strictly more than `margin = 50` pixels from every image edge. -/
def equipContourKept (width height : ℕ) (c : Contour) : Bool :=
  decide ((100 : ℚ) < c.area) && decide (c.area < 5000) &&
  decide ((3 / 10 : ℚ) < contourAspect c) && decide (contourAspect c < 3) &&
  decide ((50 : ℤ) < (c.x : ℤ)) && decide ((c.x : ℤ) < (width : ℤ) - 50 - (c.w : ℤ)) &&
  decide ((50 : ℤ) < (c.y : ℤ)) && decide ((c.y : ℤ) < (height : ℤ) - 50 - (c.h : ℤ))

/-- The dictionary appended per kept equipment contour (lines 1786-1793).
Unlike fuel nodes it carries NO `estimated_value` (and no brightness):
those keys simply do not exist in the Python dict. -/
structure EquipItem where
  x : ℕ
  y : ℕ
  width : ℕ
  height : ℕ
  area : ℚ
  aspect_ratio : ℚ
deriving DecidableEq

/-- Builds the per-contour equipment record (lines 1786-1793). -/
def mkEquipItem (c : Contour) : EquipItem :=
  { x := c.x + c.w / 2
    y := c.y + c.h / 2
    width := c.w
    height := c.h
    area := c.area
    aspect_ratio := contourAspect c }

/-- `TankpitBot.detect_equipment_visually` (lines 1718-1807) from the
contour stage on: filter, build records, sort descending by `area`
(line 1796) — not by any estimated value — and keep the first 8
(line 1799). -/
def detect_equipment_visually (width height : ℕ) (contours : List Contour) : List EquipItem :=
  let items := (contours.filter (equipContourKept width height)).map mkEquipItem
  (sortDescBy (fun e => e.area) items).take 8

/-- Modelled from the spec: `detect_equipment_visually` computes no
estimated value at all, so the spec's `estimatedValue` of a detected object
— "a deterministic function of contour area and mean region brightness"
(spec section 4.2) — is missing from the equipment code.  The only such
function in the repository is the one `detect_fuel_nodes` uses
(lines 2355-2356), reproduced here on the contour quantities. -/
def specEstimatedValue (area brightness : ℚ) : ℤ :=
  max 10 (min 100 (pyInt (area / 20 + brightness / 10)))

/-! ## The control-loop tick: `run_bot_cycle` (lines 1899-1975) -/

/-- The externally visible decisions one iteration of the `while
self.running` loop of `run_bot_cycle` can take. -/
inductive BotAction where
  | stopLoop        -- `break` after a failed reconnect (line 1927)
  | handleDeath     -- `handle_death_and_respawn` then `continue` (lines 1931-1933)
  | activateShields -- lines 1946-1951
  | fuelPriority    -- `execute_fuel_priority_sequence` (line 1957)
  | safeMode        -- `execute_safe_mode_sequence` (line 1960)
  | balanced        -- `execute_balanced_sequence` (line 1963)
  | noSession       -- lines 1964-1967
deriving DecidableEq

/-- One tick of `run_bot_cycle`'s main loop (lines 1914-1970) as the list
of decisions it takes, in order.  `sessionOk` is `self.page and
self.browser` (line 1917), `reenterOk` the result of the re-entry attempt
(line 1923), `dead` the `detect_death` result (line 1930), `pageOk` is
`self.page` at lines 1947/1954. -/
def run_bot_cycle_tick (sessionOk reenterOk dead : Bool)
    (fuel shieldThr refuelThr safeThr : ℕ) (shieldsActive pageOk : Bool) :
    List BotAction :=
  if sessionOk = false ∧ reenterOk = false then [.stopLoop]
  else if dead = true then [.handleDeath]
  else
    (if fuel ≤ shieldThr ∧ shieldsActive = false ∧ pageOk = true
     then [.activateShields] else [])
    ++ (if pageOk = true then
          (if fuel ≤ refuelThr then [.fuelPriority]
           else if safeThr ≤ fuel then [.safeMode]
           else [.balanced])
        else [.noSession])

/-! ## `persistent_fuel_and_equipment_search` (lines 1032-1097) -/

/-- What the environment hands one iteration of the persistent-search loop:
the sizes of the two detector results (lines 1053-1054), the fuel reading
taken right after collecting (line 1068), and the fuel reading taken at the
end of the iteration (line 1083). -/
structure SearchObs where
  fuelNodesFound : ℕ
  equipmentFound : ℕ
  fuelAfterCollect : ℕ
  fuelAfterUpdate : ℕ

/-- `max_search_attempts = 25` (line 1039). -/
def max_search_attempts : ℕ := 25

/-- The `while current_fuel < safe_threshold and search_attempt <
max_search_attempts` loop of `persistent_fuel_and_equipment_search`
(lines 1044-1093), with the per-attempt detector and fuel readings supplied
by the oracle `env` (indexed by the attempt number).  Returns the Python
function's boolean result together with the final value of
`search_attempt`, i.e. how many exploration attempts were performed.
Termination is by the strictly decreasing measure `maxA - attempt`, which
mirrors the loop guard `search_attempt < max_search_attempts` plus the
unconditional `search_attempt += 1`. -/
def persistent_search_loop (env : ℕ → SearchObs) (safeThr : ℕ) :
    (fuel attempt maxA : ℕ) → Bool × ℕ
  | fuel, attempt, maxA =>
    if h : fuel < safeThr ∧ attempt < maxA then
      let a := attempt + 1
      let o := env a
      if 0 < o.fuelNodesFound + o.equipmentFound then
        if safeThr ≤ o.fuelAfterCollect then (true, a)
        else persistent_search_loop env safeThr o.fuelAfterUpdate a maxA
      else persistent_search_loop env safeThr o.fuelAfterUpdate a maxA
    else if maxA ≤ attempt then (false, attempt)
    else (true, attempt)
  termination_by _ attempt maxA => maxA - attempt
  decreasing_by all_goals omega

/-- `TankpitBot.persistent_fuel_and_equipment_search` (lines 1032-1097):
start from the initial fuel reading (line 1038) with `search_attempt = 0`
(line 1040) and the bound `max_search_attempts = 25`. -/
def persistent_fuel_and_equipment_search (env : ℕ → SearchObs)
    (initialFuel safeThr : ℕ) : Bool × ℕ :=
  persistent_search_loop env safeThr initialFuel 0 max_search_attempts

/-! ## `perform_random_proximity_move`: shadowed definition
(lines 927-976) and effective definition (lines 2486-2537) -/

/-- The radius bounds a version of `perform_random_proximity_move` passes
to `random.uniform`. -/
structure ProximityMove where
  distLo : ℚ
  distHi : ℚ
deriving DecidableEq

/-- The FIRST, shadowed definition (lines 927-976):
`random.uniform(5, 12)` at line 953. -/
def perform_random_proximity_move_shadowed : ProximityMove := ⟨5, 12⟩

/-- The SECOND definition (lines 2486-2537): `random.uniform(5, 15)` at
line 2512.  Being the later `def` of the same name in the class body, this
is the method Python actually binds, so it is what every call site
(including the persistent-search loop, line 1080) runs. -/
def perform_random_proximity_move : ProximityMove := ⟨5, 15⟩

/-- The target-point computation shared verbatim by both versions
(lines 944-963 and 2503-2522): screen center by integer halving, offsets
`int(distance * cos(angle))` / `int(distance * sin(angle))` (the
cosine/sine values are abstracted as the inputs `c`, `s`), then the clamp
`max(50, min(width - 50, target))` per axis. -/
def proximityTarget (width height : ℕ) (dist c s : ℚ) : ℤ × ℤ :=
  let cx : ℤ := (width / 2 : ℕ)
  let cy : ℤ := (height / 2 : ℕ)
  let ox := pyInt (dist * c)
  let oy := pyInt (dist * s)
  (max 50 (min ((width : ℤ) - 50) (cx + ox)),
   max 50 (min ((height : ℤ) - 50) (cy + oy)))

/-! ## Concrete inputs used by witnesses and counterexamples -/

/-- A pure white pixel. -/
def pixWhite : Pix := { b := 255, g := 255, r := 255 }

/-- A pure red pixel (BGR (0,0,255)). -/
def pixRed : Pix := { b := 0, g := 0, r := 255 }

/-- A pure black pixel. -/
def pixBlack : Pix := { b := 0, g := 0, r := 0 }

/-- A mid-gray pixel, classified as "filled" by the bar measurement. -/
def pixGray100 : Pix := { b := 100, g := 100, r := 100 }

/-- A saturated green pixel: neither "empty" nor "filled" for the bar
measurement (blue and red are 0, green is 200). -/
def pixGreen : Pix := { b := 0, g := 200, r := 0 }

/-- A 1-by-1 white screenshot. -/
def imgWhite1 : Img := [[pixWhite]]

/-- A 1-by-1 pure-red screenshot: mean gray 76, mean red 255. -/
def imgRed1 : Img := [[pixRed]]

/-- A 1-by-1 all-black screenshot: every fuel tier fails on it. -/
def imgBlack1 : Img := [[pixBlack]]

/-- A 4-pixel candidate bar region: two filled, one empty, one
unclassified pixel. -/
def barRegionW : List Pix := [pixGray100, pixGray100, pixBlack, pixGreen]

/-- A contour every fuel-node and equipment filter keeps on a
1000-by-1000 screenshot. -/
def contourW : Contour :=
  { area := 500, x := 100, y := 100, w := 20, h := 20, brightness := 100 }

/-- An equipment-shaped contour with large area but zero brightness. -/
def contourEquipA : Contour :=
  { area := 300, x := 100, y := 100, w := 20, h := 20, brightness := 0 }

/-- An equipment-shaped contour with smaller area but maximal
brightness. -/
def contourEquipB : Contour :=
  { area := 200, x := 200, y := 200, w := 20, h := 20, brightness := 250 }

/-! ## Theorems -/

/-- Every value `measureGaugeStep` stores in the `best_fuel_percentage`
slot is clamped to at most 100. -/
lemma measureGaugeStep_bound (region : List Pix) (acc : Option ℕ × ℕ)
    (rng : ℕ × ℕ × ℕ × ℕ × ℕ × ℕ)
    (hacc : ∀ p, acc.1 = some p → p ≤ 100) :
    ∀ p, (measureGaugeStep region acc rng).1 = some p → p ≤ 100 := by
  intro p hp
  rcases rng with ⟨lb, lg, lr, hb, hg, hr⟩
  unfold measureGaugeStep at hp
  simp only at hp
  split at hp
  · split at hp
    · simp only [Option.some.injEq] at hp
      omega
    · exact hacc p hp
  · exact hacc p hp

/-- The color-range fold of `measure_fuel_gauge_simple` preserves the
"best value is at most 100" invariant. -/
lemma gaugeFold_bound (region : List Pix) :
    ∀ (l : List (ℕ × ℕ × ℕ × ℕ × ℕ × ℕ)) (acc : Option ℕ × ℕ),
      (∀ p, acc.1 = some p → p ≤ 100) →
      ∀ p, (l.foldl (measureGaugeStep region) acc).1 = some p → p ≤ 100 := by
  intro l
  induction l with
  | nil => intro acc hacc p hp; exact hacc p hp
  | cons rng rest ih =>
    intro acc hacc p hp
    exact ih _ (measureGaugeStep_bound region acc rng hacc) p hp

/-- Any reading `measure_fuel_gauge_simple` produces is at most 100. -/
lemma measure_fuel_gauge_simple_le (region : List Pix) (p : ℕ)
    (h : measure_fuel_gauge_simple region = some p) : p ≤ 100 := by
  unfold measure_fuel_gauge_simple at h
  split at h
  · exact absurd h (by simp)
  · simp only at h
    split at h
    · split at h
      · simp only [Option.some.injEq] at h
        omega
      · exact absurd h (by simp)
    · exact gaugeFold_bound region fuelGaugeColorRanges (none, 0)
        (by intro q hq; simp at hq) p h

/-- The tier selector returns 50 or a tier value; with all tier values at
most 100 the result is at most 100. -/
lemma firstPositiveTier_le (l : List (Option ℕ))
    (hl : ∀ o ∈ l, ∀ p, o = some p → p ≤ 100) : firstPositiveTier l ≤ 100 := by
  induction l with
  | nil => simp [firstPositiveTier]
  | cons o rest ih =>
    match o with
    | none =>
      simp only [firstPositiveTier]
      exact ih (fun o ho => hl o (List.mem_cons_of_mem _ ho))
    | some p =>
      simp only [firstPositiveTier]
      split
      · exact hl (some p) (List.mem_cons_self _ _) p rfl
      · exact ih (fun o ho => hl o (List.mem_cons_of_mem _ ho))

/-- C1: for every input — no page, a screenshot that fails to decode, or
any decoded image, hence on every path the `except` handler also covers —
`detect_fuel_level` returns a plain number (the Lean embedding is total, so
no `None` is possible) lying in [0, 100]; when no tier yields a confident
positive reading it returns the numeric default 50. -/
theorem C1_fuel_sampler_range (page : Option (Option Img)) :
    detect_fuel_level page ≤ 100 := by
  match page with
  | none => simp [detect_fuel_level]
  | some none => simp [detect_fuel_level]
  | some (some img) =>
    show firstPositiveTier (fuelTiers img) ≤ 100
    apply firstPositiveTier_le
    intro o ho p hp
    rcases List.mem_map.mp ho with ⟨region, -, rfl⟩
    exact measure_fuel_gauge_simple_le region p hp

/-- C2: the effective death detector returns `true` exactly when the page
text contains one of the fixed death phrases (case-insensitively) or the
mean grayscale brightness of the decoded screenshot is below 30; each
signal alone suffices.  A decoded screenshot always has at least one
pixel, which the hypothesis records. -/
theorem C2_death_detector_iff (img : Img) (content : List Char)
    (_hpix : 0 < npix img) :
    detect_death (some (some img)) content = true ↔
      (hasDeathIndicator content = true ∨ meanGray img < 30) := by
  show (if hasDeathIndicator content then true
        else if meanGray img < 30 then true else false) = true ↔
      (hasDeathIndicator content = true ∨ meanGray img < 30)
  split
  · simp_all
  · split
    · simp_all
    · simp_all

/-- Witness for C2 at a concrete input: a 1-by-1 white screenshot and page
text containing the phrase "you died". -/
theorem C2_witness :
    0 < npix imgWhite1 ∧
      (detect_death (some (some imgWhite1)) ("you died".toList) = true ↔
        (hasDeathIndicator ("you died".toList) = true ∨
          meanGray imgWhite1 < 30)) :=
  ⟨by decide, C2_death_detector_iff _ _ (by decide)⟩

/-- C3: in any tick of `run_bot_cycle` that reaches the death check (the
browser session is intact or was re-entered), a positive death detection
makes the tick handle death and `continue`: the emitted decision list is
exactly `[handleDeath]`, so no shield activation, no refueling sequence,
no safe-mode sequence and no balanced sequence happen in that tick. -/
theorem C3_death_preempts (sessionOk reenterOk : Bool)
    (fuel shieldThr refuelThr safeThr : ℕ) (shieldsActive pageOk : Bool)
    (hsession : sessionOk = true ∨ reenterOk = true) :
    run_bot_cycle_tick sessionOk reenterOk true fuel shieldThr refuelThr
        safeThr shieldsActive pageOk = [BotAction.handleDeath] ∧
      BotAction.activateShields ∉ run_bot_cycle_tick sessionOk reenterOk true
        fuel shieldThr refuelThr safeThr shieldsActive pageOk ∧
      BotAction.fuelPriority ∉ run_bot_cycle_tick sessionOk reenterOk true
        fuel shieldThr refuelThr safeThr shieldsActive pageOk ∧
      BotAction.safeMode ∉ run_bot_cycle_tick sessionOk reenterOk true
        fuel shieldThr refuelThr safeThr shieldsActive pageOk ∧
      BotAction.balanced ∉ run_bot_cycle_tick sessionOk reenterOk true
        fuel shieldThr refuelThr safeThr shieldsActive pageOk := by
  have h : run_bot_cycle_tick sessionOk reenterOk true fuel shieldThr
      refuelThr safeThr shieldsActive pageOk = [BotAction.handleDeath] := by
    unfold run_bot_cycle_tick
    rcases hsession with h | h <;> simp [h]
  refine ⟨h, ?_, ?_, ?_, ?_⟩ <;> simp [h]

/-- Witness for C3 at a concrete input: intact session, death detected,
fuel 5 with thresholds 10/25/85, shields off, page available. -/
theorem C3_witness :
    (true = true ∨ false = true) ∧
      (run_bot_cycle_tick true false true 5 10 25 85 false true =
          [BotAction.handleDeath] ∧
        BotAction.activateShields ∉ run_bot_cycle_tick true false true 5 10 25 85 false true ∧
        BotAction.fuelPriority ∉ run_bot_cycle_tick true false true 5 10 25 85 false true ∧
        BotAction.safeMode ∉ run_bot_cycle_tick true false true 5 10 25 85 false true ∧
        BotAction.balanced ∉ run_bot_cycle_tick true false true 5 10 25 85 false true) :=
  ⟨Or.inl rfl, C3_death_preempts true false 5 10 25 85 false true (Or.inl rfl)⟩

/-- C10: the second `detect_death` definition shadows the first, so the
effective detector consults only the phrase and dark-screen signals: on any
decoded screenshot with mean grayscale brightness at least 30 whose page
text holds no death phrase it returns `false`, even when the mean red
channel exceeds 150 — while the shadowed first definition would have
returned `true` on the same input through its red-tint signal. -/
theorem C10_shadowed_red_signal (img : Img) (content : List Char)
    (hgray : ¬ meanGray img < 30) (htext : hasDeathIndicator content = false)
    (hred : 150 < meanRed img) :
    detect_death (some (some img)) content = false ∧
      detect_death_shadowed (some (some img)) content = true := by
  constructor
  · show (if hasDeathIndicator content then true
          else if meanGray img < 30 then true else false) = false
    simp [htext, hgray]
  · show (if hasDeathIndicator content then true
          else if meanGray img < 30 then true
          else if 150 < meanRed img then true else false) = true
    simp [htext, hgray, hred]

/-- `meanGray` of the 1-by-1 red screenshot: OpenCV gray of BGR (0,0,255)
is `(4899*255 + 8192) >> 14 = 76`. -/
lemma meanGray_imgRed1 : meanGray imgRed1 = 76 := by
  have h : grayPix pixRed = 76 := rfl
  simp [meanGray, imgRed1, pixels, npix, h]

/-- `meanRed` of the 1-by-1 red screenshot is 255. -/
lemma meanRed_imgRed1 : meanRed imgRed1 = 255 := by
  have h : (pixRed.r.val : ℕ) = 255 := rfl
  simp [meanRed, imgRed1, pixels, npix, h]

/-- Witness for C10 at a concrete input: a 1-by-1 pure-red screenshot
(mean gray 76, mean red 255) and empty page text. -/
theorem C10_witness :
    (¬ meanGray imgRed1 < 30) ∧
      hasDeathIndicator [] = false ∧
      150 < meanRed imgRed1 ∧
      (detect_death (some (some imgRed1)) [] = false ∧
        detect_death_shadowed (some (some imgRed1)) [] = true) :=
  ⟨by rw [meanGray_imgRed1]; norm_num, by decide,
    by rw [meanRed_imgRed1]; norm_num,
    C10_shadowed_red_signal _ _ (by rw [meanGray_imgRed1]; norm_num)
      (by decide) (by rw [meanRed_imgRed1]; norm_num)⟩

/-- The persistent-search loop never drives `search_attempt` past the
bound: starting from any `attempt ≤ maxA`, the attempt count it returns is
at most `maxA`, for every oracle. -/
lemma persistent_search_loop_attempts (env : ℕ → SearchObs) (safeThr : ℕ) :
    ∀ (k fuel attempt maxA : ℕ), maxA - attempt ≤ k → attempt ≤ maxA →
      (persistent_search_loop env safeThr fuel attempt maxA).2 ≤ maxA := by
  intro k
  induction k with
  | zero =>
    intro fuel attempt maxA hk hle
    rw [persistent_search_loop]
    have heq : attempt = maxA := by omega
    split
    · omega
    · split <;> simp [hle]
  | succ n ih =>
    intro fuel attempt maxA hk hle
    rw [persistent_search_loop]
    split
    · rename_i h
      dsimp only
      split
      · split
        · exact h.2
        · exact ih _ _ _ (by omega) (by omega)
      · exact ih _ _ _ (by omega) (by omega)
    · split <;> simp [hle]

/-- C4: `persistent_fuel_and_equipment_search` performs at most
`max_search_attempts = 25` exploration attempts before returning, for every
possible sequence of detector and fuel readings — in particular also when
every attempt finds nothing — and the loop terminates (the embedding is a
total function, by recursion on the decreasing measure
`max_search_attempts - search_attempt` that the loop guard enforces). -/
theorem C4_search_bounded (env : ℕ → SearchObs) (initialFuel safeThr : ℕ) :
    (persistent_fuel_and_equipment_search env initialFuel safeThr).2 ≤
      max_search_attempts := by
  unfold persistent_fuel_and_equipment_search
  exact persistent_search_loop_attempts env safeThr max_search_attempts
    initialFuel 0 max_search_attempts (by omega) (by omega)

/-- C5: the bar-measurement step of the sampler behaves exactly as
specified on every non-empty candidate rectangle (candidate rectangles
have `w ≥ 50, h ≥ 5`, so they are non-empty): a pixel counts as empty when
every channel is at most 40 and as filled when every channel is above 40;
a reading exists precisely when the classified pixels cover at least 50%
of the rectangle, and then equals `filled/(filled+empty)*100`, truncated
and clamped to [0,100]; otherwise the result is `None`. -/
theorem C5_bar_measurement (region : List Pix) (hne : 0 < region.length) :
    measure_fuel_in_bar region = measure_fuel_in_bar_specside region := by
  have he : region.filter isEmptyPix = region.filter (fun p =>
      decide (p.b.val ≤ 40) && decide (p.g.val ≤ 40) && decide (p.r.val ≤ 40)) := by
    apply List.filter_congr
    intro p _
    rw [Bool.eq_iff_iff]
    simp [isEmptyPix, pixInRange]
  have hf : region.filter isFilledPix = region.filter (fun p =>
      decide (40 < p.b.val) && decide (40 < p.g.val) && decide (40 < p.r.val)) := by
    apply List.filter_congr
    intro p _
    rw [Bool.eq_iff_iff]
    have hb := p.b.isLt
    have hg := p.g.isLt
    have hr := p.r.isLt
    simp [isFilledPix, pixInRange]
    omega
  unfold measure_fuel_in_bar measure_fuel_in_bar_specside
  rw [he, hf]
  simp only
  split_ifs <;> first
    | rfl
    | omega
    | rw [Nat.add_comm]

/-- Witness for C5 at a concrete input: a 4-pixel region with two filled,
one empty and one unclassified pixel. -/
theorem C5_witness :
    0 < barRegionW.length ∧
      measure_fuel_in_bar barRegionW = measure_fuel_in_bar_specside barRegionW :=
  ⟨by decide, C5_bar_measurement _ (by decide)⟩

/-- Counterexample for C6: on the 1-by-1 all-black screenshot every one of
the four sampling tiers fails to produce a reading, there is no last-known
value anywhere in `detect_fuel_level` (it holds no state), and the sampler
returns the default 50 — not 75 as claimed. -/
theorem C6_counterexample :
    fuelTiers imgBlack1 = [none, none, none, none] ∧
      detect_fuel_level (some (some imgBlack1)) = 50 ∧ (50 : ℕ) ≠ 75 := by
  refine ⟨by decide, by decide, by decide⟩

/-- The tier selector falls through to the default 50 when every tier
failed. -/
lemma firstPositiveTier_all_none (l : List (Option ℕ))
    (hl : ∀ o ∈ l, o = none) : firstPositiveTier l = 50 := by
  induction l with
  | nil => rfl
  | cons o rest ih =>
    have ho := hl o (List.mem_cons_self _ _)
    subst ho
    simp only [firstPositiveTier]
    exact ih (fun o ho => hl o (List.mem_cons_of_mem _ ho))

/-- C6 as amended: when every fuel-sampling tier fails to produce a reading
the sampler returns the default value 50 (the code keeps no last-known
value at all, and its default is 50 on every failure path, not 75). -/
theorem C6_amended_default_50 (img : Img)
    (hall : ∀ o ∈ fuelTiers img, o = none) :
    detect_fuel_level (some (some img)) = 50 := by
  show firstPositiveTier (fuelTiers img) = 50
  exact firstPositiveTier_all_none _ hall

/-- Witness for the amended C6 at a concrete input: the 1-by-1 all-black
screenshot, on which all four tiers fail. -/
theorem C6_witness :
    (∀ o ∈ fuelTiers imgBlack1, o = none) ∧
      detect_fuel_level (some (some imgBlack1)) = 50 :=
  ⟨by decide, C6_amended_default_50 _ (by decide)⟩

/-- `sortDescBy` output is sorted with non-increasing keys. -/
lemma sortDescBy_sorted {α β : Type} [LinearOrder β] (key : α → β) (l : List α) :
    List.Sorted (fun a b => key b ≤ key a) (sortDescBy key l) :=
  List.sorted_insertionSort _ l

/-- Sorting does not change membership. -/
lemma mem_sortDescBy {α β : Type} [LinearOrder β] (key : α → β) (l : List α) (x : α) :
    x ∈ sortDescBy key l ↔ x ∈ l :=
  (List.perm_insertionSort _ l).mem_iff

/-- A prefix of a sorted list is sorted. -/
lemma sorted_take {α : Type} {r : α → α → Prop} {l : List α}
    (h : List.Sorted r l) (n : ℕ) : List.Sorted r (l.take n) :=
  List.Pairwise.sublist (List.take_sublist n l) h

/-- Counterexample for C7: on a 1000-by-1000 screenshot with two
equipment-colored contours — one of area 300 and mean brightness 0, one of
area 200 and mean brightness 250 — the equipment detector returns the
area-300 item first (it sorts by area only), yet the spec's
`estimatedValue` (the repository's only area-and-brightness value
function, the one `detect_fuel_nodes` uses) of the first returned item is
15 while that of the second is 35: `estimatedValue` strictly increases
across the returned list instead of being non-increasing.  (The returned
equipment records do not even carry an `estimated_value` field.) -/
theorem C7_counterexample :
    (detect_equipment_visually 1000 1000 [contourEquipA, contourEquipB]).map
        (fun e => e.area) = [300, 200] ∧
      specEstimatedValue contourEquipA.area contourEquipA.brightness <
        specEstimatedValue contourEquipB.area contourEquipB.brightness := by
  constructor
  · norm_num [detect_equipment_visually, sortDescBy, List.insertionSort,
      List.orderedInsert, equipContourKept, contourAspect, contourEquipA,
      contourEquipB, mkEquipItem, List.filter, List.take]
  · norm_num [specEstimatedValue, pyInt, contourEquipA, contourEquipB]

/-- C7 as amended: every fuel-node list the detector returns is sorted
with non-increasing `estimated_value`; every equipment list is sorted with
non-increasing `area` — the equipment detector computes no estimated
value, its ranking key is the contour area alone. -/
theorem C7_amended_detector_order (width height : ℕ) (contours : List Contour) :
    List.Sorted (fun a b : FuelNode => b.estimated_value ≤ a.estimated_value)
        (detect_fuel_nodes width height contours) ∧
      List.Sorted (fun a b : EquipItem => b.area ≤ a.area)
        (detect_equipment_visually width height contours) :=
  ⟨sorted_take (sortDescBy_sorted _ _) 10, sorted_take (sortDescBy_sorted _ _) 8⟩

/-- The fuel filter forces its area band and aspect band on every kept
contour. -/
lemma fuelContourKept_bounds {width height : ℕ} {c : Contour}
    (h : fuelContourKept width height c = true) :
    (80 < c.area ∧ c.area < 3000) ∧
      ((1 / 2 : ℚ) < contourAspect c ∧ contourAspect c < 2) := by
  simp only [fuelContourKept, Bool.and_eq_true, decide_eq_true_eq] at h
  exact ⟨⟨h.1.1.1.1.1.1.1, h.1.1.1.1.1.1.2⟩, h.1.1.1.1.1.2, h.1.1.1.1.2⟩

/-- The equipment filter forces its area band and aspect band on every
kept contour. -/
lemma equipContourKept_bounds {width height : ℕ} {c : Contour}
    (h : equipContourKept width height c = true) :
    (100 < c.area ∧ c.area < 5000) ∧
      ((3 / 10 : ℚ) < contourAspect c ∧ contourAspect c < 3) := by
  simp only [equipContourKept, Bool.and_eq_true, decide_eq_true_eq] at h
  exact ⟨⟨h.1.1.1.1.1.1.1, h.1.1.1.1.1.1.2⟩, h.1.1.1.1.1.2, h.1.1.1.1.2⟩

/-- C8: every object returned by the detectors has its contour area
strictly inside the kind-specific band (fuel: 80-3000, equipment:
100-5000) and its bounding-box aspect ratio within 0.3-3.0 (the fuel
filter enforces the tighter 0.5-2.0, which lies inside 0.3-3.0). -/
theorem C8_detector_bands (width height : ℕ) (contours : List Contour) :
    (∀ n ∈ detect_fuel_nodes width height contours,
        (80 < n.area ∧ n.area < 3000) ∧
          ((3 / 10 : ℚ) < n.aspect_ratio ∧ n.aspect_ratio < 3)) ∧
      (∀ e ∈ detect_equipment_visually width height contours,
        (100 < e.area ∧ e.area < 5000) ∧
          ((3 / 10 : ℚ) < e.aspect_ratio ∧ e.aspect_ratio < 3)) := by
  constructor
  · intro n hn
    have hn' : n ∈ sortDescBy (fun n : FuelNode => n.estimated_value)
        ((contours.filter (fuelContourKept width height)).map mkFuelNode) :=
      List.take_subset _ _ hn
    rw [mem_sortDescBy] at hn'
    rcases List.mem_map.mp hn' with ⟨c, hc, rfl⟩
    have hb := fuelContourKept_bounds (List.mem_filter.mp hc).2
    exact ⟨hb.1, lt_trans (by norm_num) hb.2.1, lt_trans hb.2.2 (by norm_num)⟩
  · intro e he
    have he' : e ∈ sortDescBy (fun e : EquipItem => e.area)
        ((contours.filter (equipContourKept width height)).map mkEquipItem) :=
      List.take_subset _ _ he
    rw [mem_sortDescBy] at he'
    rcases List.mem_map.mp he' with ⟨c, hc, rfl⟩
    exact equipContourKept_bounds (List.mem_filter.mp hc).2

/-- Witness for C8 at a concrete input: on a 1000-by-1000 screenshot the
contour `contourW` passes both filters, so each detector returns the
corresponding record, and the bands hold for it. -/
theorem C8_witness :
    ((80 < (mkFuelNode contourW).area ∧ (mkFuelNode contourW).area < 3000) ∧
        ((3 / 10 : ℚ) < (mkFuelNode contourW).aspect_ratio ∧
          (mkFuelNode contourW).aspect_ratio < 3)) ∧
      ((100 < (mkEquipItem contourW).area ∧ (mkEquipItem contourW).area < 5000) ∧
        ((3 / 10 : ℚ) < (mkEquipItem contourW).aspect_ratio ∧
          (mkEquipItem contourW).aspect_ratio < 3)) := by
  have hF : detect_fuel_nodes 1000 1000 [contourW] = [mkFuelNode contourW] := by
    norm_num [detect_fuel_nodes, sortDescBy, List.insertionSort,
      List.orderedInsert, fuelContourKept, contourAspect, contourW,
      List.filter, List.take]
  have hE : detect_equipment_visually 1000 1000 [contourW] = [mkEquipItem contourW] := by
    norm_num [detect_equipment_visually, sortDescBy, List.insertionSort,
      List.orderedInsert, equipContourKept, contourAspect, contourW,
      List.filter, List.take]
  exact ⟨(C8_detector_bands 1000 1000 [contourW]).1 _
      (by rw [hF]; exact List.mem_singleton.mpr rfl),
    (C8_detector_bands 1000 1000 [contourW]).2 _
      (by rw [hE]; exact List.mem_singleton.mpr rfl)⟩

/-- Counterexample for C9.  First part: the effective
`perform_random_proximity_move` (the later definition, which shadows the
earlier one) draws its radius from `random.uniform(5, 15)`, whose upper
bound 15 exceeds the claimed range [5, 12].  Second part: on a 60-by-60
screenshot, the admissible draw radius 10 at angle 0 (cosine 1, sine 0)
is clamped to x = 50, which is only 10 pixels from the right edge — the
clamp guarantees "at least 50 pixels from every edge" only when the image
is at least 100 pixels wide. -/
theorem C9_counterexample :
    (perform_random_proximity_move.distHi = 15 ∧
        ¬ perform_random_proximity_move.distHi ≤ 12) ∧
      ((proximityTarget 60 60 10 1 0).1 = 50 ∧
        (60 : ℤ) - (proximityTarget 60 60 10 1 0).1 < 50) := by
  have h : (proximityTarget 60 60 10 1 0).1 = 50 := by
    simp only [proximityTarget]
    norm_num [pyInt, min_def, max_def]
  exact ⟨⟨rfl, by norm_num [perform_random_proximity_move]⟩,
    h, by rw [h]; norm_num⟩

/-- C9 as amended: the effective random proximity move draws a uniform
random angle in [0, 2π) and a uniform random radius in [5, 15] (not
[5, 12]: the later definition shadows the earlier one), and clamps the
clicked coordinate to [50, width-50] x [50, height-50] — which keeps the
click at least 50 pixels from every image edge whenever the screenshot is
at least 100 pixels in each dimension, whatever the drawn radius and
angle. -/
theorem C9_amended_proximity (width height : ℕ) (dist c s : ℚ)
    (hw : 100 ≤ width) (hh : 100 ≤ height) :
    perform_random_proximity_move.distLo = 5 ∧
      perform_random_proximity_move.distHi = 15 ∧
      (50 ≤ (proximityTarget width height dist c s).1 ∧
        (proximityTarget width height dist c s).1 ≤ (width : ℤ) - 50) ∧
      (50 ≤ (proximityTarget width height dist c s).2 ∧
        (proximityTarget width height dist c s).2 ≤ (height : ℤ) - 50) := by
  refine ⟨rfl, rfl, ?_, ?_⟩ <;>
    · simp only [proximityTarget]
      constructor <;> omega

/-- Witness for the amended C9 at a concrete input: a 1280-by-720
screenshot, radius 10, angle 0 (cosine 1, sine 0). -/
theorem C9_witness :
    ((100 : ℕ) ≤ 1280 ∧ (100 : ℕ) ≤ 720) ∧
      (perform_random_proximity_move.distLo = 5 ∧
        perform_random_proximity_move.distHi = 15 ∧
        (50 ≤ (proximityTarget 1280 720 10 1 0).1 ∧
          (proximityTarget 1280 720 10 1 0).1 ≤ (1280 : ℤ) - 50) ∧
        (50 ≤ (proximityTarget 1280 720 10 1 0).2 ∧
          (proximityTarget 1280 720 10 1 0).2 ≤ (720 : ℤ) - 50)) :=
  ⟨⟨by decide, by decide⟩,
    C9_amended_proximity 1280 720 10 1 0 (by decide) (by decide)⟩
